import Mathlib

/-!
Verification of the braze_mcp_write core: a shallow embedding of the
registry builder (metadata extraction from signatures and docstrings),
the layered safety-decorator pipeline (write-enabled gate, workspace
allow-list, confirmation requirement, rate limiter, dry-run interceptor)
and the dispatcher error paths, together with theorems settling the
specified behavioural claims.

Python values are modelled by the inductive `PyVal`; machine integers do
not occur (Python ints are unbounded, modelled by `Int`); timestamps are
modelled as integer seconds; code that can raise is modelled with
`Except` or an explicit exception constructor in the result type.
-/

set_option maxHeartbeats 1000000

namespace BrazeMCP

/-- Model of a Python runtime value, as used for tool arguments,
keyword-argument dictionaries and structured response dictionaries.
`pcallable` and `pobj` stand for values that are not JSON-serializable
(a function object, resp. an arbitrary object with a class name and a
`str()` form). -/
inductive PyVal where
  | pbool : Bool → PyVal
  | pint : Int → PyVal
  | pstr : String → PyVal
  | pnone : PyVal
  | plist : List PyVal → PyVal
  | pdict : List (String × PyVal) → PyVal
  | pcallable : String → PyVal
  | pobj : String → String → PyVal
deriving Repr

/-- Python truthiness (`bool(v)`) for the modelled values. -/
def truthy : PyVal → Bool
  | .pbool b => b
  | .pint n => n != 0
  | .pstr s => s ≠ ""
  | .pnone => false
  | .plist vs => !vs.isEmpty
  | .pdict fs => !fs.isEmpty
  | .pcallable _ => true
  | .pobj _ _ => true

/-!
### Python string primitives

The embedding re-implements the Python string built-ins it needs on
character lists (plain structural recursion, so that concrete instances
reduce inside the kernel).
-/

/-- The ASCII whitespace set of `str.strip()`. -/
def pyIsSpace (c : Char) : Bool :=
  c == ' ' || c == '\t' || c == '\n' || c == '\r' || c == '\x0b' || c == '\x0c'

/-- The second list is a prefix of the first. -/
def startsWithList : List Char → List Char → Bool
  | _, [] => true
  | [], _ :: _ => false
  | a :: as, b :: bs => a == b && startsWithList as bs

/-- `needle in haystack` on character lists: substring containment. -/
def containsList (needle : List Char) : List Char → Bool
  | [] => startsWithList [] needle
  | c :: t => startsWithList (c :: t) needle || containsList needle t

/-- `str.strip()`. -/
def pyStrip (s : String) : String :=
  ⟨((s.toList.dropWhile pyIsSpace).reverse.dropWhile pyIsSpace).reverse⟩

/-- `str.lstrip()`. -/
def pyLStrip (s : String) : String :=
  ⟨s.toList.dropWhile pyIsSpace⟩

/-- `str.lower()` (ASCII). -/
def pyToLower (s : String) : String :=
  ⟨s.toList.map Char.toLower⟩

/-- `s.split(sep)` for a one-character separator, with Python's
semantics (empty segments are kept). -/
def splitOnCharList (sep : Char) : List Char → List (List Char)
  | [] => [[]]
  | c :: t =>
    if c == sep then [] :: splitOnCharList sep t
    else match splitOnCharList sep t with
      | [] => [c] :: []
      | h :: r => (c :: h) :: r

/-- `s.split(sep)` on strings. -/
def pySplit (s : String) (sep : Char) : List String :=
  (splitOnCharList sep s.toList).map (fun l => ⟨l⟩)

/-- `s.endswith(suffix)`. -/
def pyEndsWith (s suffix : String) : Bool :=
  startsWithList s.toList.reverse suffix.toList.reverse

/-- `s.startswith(pre)`. -/
def pyStartsWith (s pre : String) : Bool :=
  startsWithList s.toList pre.toList

/-- `c in s` for a single character. -/
def pyContainsChar (s : String) (c : Char) : Bool :=
  s.toList.contains c

/-- `sep.join(xs)`. -/
def pyJoin (sep : String) : List String → String
  | [] => ""
  | [x] => x
  | x :: y :: r => x ++ sep ++ pyJoin sep (y :: r)

/-- Keyword arguments: a Python `**kwargs` dict, modelled as an
association list whose keys are pairwise distinct. -/
abbrev Kwargs := List (String × PyVal)

/-- `kwargs.get(k)` : first binding of `k`, if any. -/
def lookupKw (kw : Kwargs) (k : String) : Option PyVal :=
  (kw.find? (fun p => p.1 = k)).map (fun p => p.2)

/-- The dictionary left behind by `kwargs.pop(k, default)`: the binding
of `k` (there is at most one in a Python dict) is removed. -/
def removeKw (kw : Kwargs) (k : String) : Kwargs :=
  kw.eraseP (fun p => p.1 = k)

/-- `kwargs.pop(k, d)`: the value popped (or the default). -/
def popKw (kw : Kwargs) (k : String) (d : PyVal) : PyVal :=
  (lookupKw kw k).getD d

/-!
## utils/safety.py — configuration, rate limiter, guard decorators
-/

/-- The module-level configuration flags of `utils/safety.py`, read from
the environment at import time (`WRITE_ENABLED`, `ALLOW_PRODUCTION`,
`DRY_RUN_DEFAULT`, `ALLOWED_WORKSPACE_PATTERNS`), passed explicitly. -/
structure SafetyEnv where
  writeEnabled : Bool
  allowProduction : Bool
  dryRunDefault : Bool
  allowedWorkspacePatterns : List String
deriving Repr

/-- The part of the MCP invocation context the safety code reads:
`get_braze_context(ctx).base_url`. -/
structure Ctx where
  baseUrl : String
deriving Repr

/-- `RateLimiter.requests`: per-operation-name recorded timestamps
(integer seconds), a `defaultdict(list)` modelled as an association
list; a missing key reads as `[]`. -/
abbrev RLState := List (String × List Int)

/-- Read `self.requests[operation]` (defaultdict: absent key is `[]`). -/
def getRequests (st : RLState) (op : String) : List Int :=
  ((st.find? (fun p => p.1 = op)).map (fun p => p.2)).getD []

/-- Write `self.requests[operation] = ts`. -/
def setRequests (st : RLState) (op : String) (ts : List Int) : RLState :=
  if st.any (fun p => p.1 = op) then
    st.map (fun p => if p.1 = op then (op, ts) else p)
  else st ++ [(op, ts)]

/-- `RateLimiter.check_limit(operation, limit, window_seconds)` at time
`now`: prune the recorded timestamps to those strictly newer than
`now - window_seconds`; if the remaining count is at least `limit`,
reject without recording and report counts and wait time; otherwise
record `now` and accept.  The reject branch indexes
`self.requests[operation][0]`, which raises `IndexError` when the pruned
list is empty (reachable when `limit ≤ 0`); an `Except.error` models the
escaping exception, the returned state being the one already mutated by
the pruning assignment. -/
def check_limit (st : RLState) (operation : String) (limit : Int)
    (window_seconds : Int) (now : Int) :
    Except String (Bool × String) × RLState :=
  let cutoff := now - window_seconds
  let pruned := (getRequests st operation).filter (fun t => t > cutoff)
  let st1 := setRequests st operation pruned
  let current_count : Int := pruned.length
  if current_count ≥ limit then
    match pruned with
    | [] => (.error "IndexError: list index out of range", st1)
    | oldest :: _ =>
      let wait_time := oldest - cutoff
      (.ok (false,
        "Rate limit exceeded for " ++ operation ++ ". " ++
          toString current_count ++ "/" ++ toString limit ++
          " requests in window. Try again in " ++ toString wait_time ++
          " seconds."), st1)
  else
    (.ok (true, "OK (" ++ toString (current_count + 1) ++ "/" ++
        toString limit ++ ")"),
      setRequests st operation (pruned ++ [now]))

/-- Result of an (awaited) wrapped call: a returned value or an escaping
exception (kind, message). -/
inductive PyResult where
  | ret : PyVal → PyResult
  | exn : String → String → PyResult
deriving Repr

/-- An async callable as the decorators see it: `functools.wraps`
preserves `name` (`func.__name__`); `call` takes the invocation context,
the current time (the value `datetime.now()` yields during the call),
the shared rate-limiter state, positional args and keyword args, and
returns the result together with the possibly-updated limiter state. -/
structure AsyncFunc where
  name : String
  call : Ctx → Int → RLState → List PyVal → Kwargs → PyResult × RLState

/-- `validate_write_enabled`: raises `ValueError` unless the
process-wide write-enable flag is set; otherwise delegates. -/
def validate_write_enabled (env : SafetyEnv) (f : AsyncFunc) : AsyncFunc where
  name := f.name
  call := fun ctx now st args kw =>
    if !env.writeEnabled then
      (.exn "ValueError"
        ("Write operation \x27" ++ f.name ++ "\x27 is disabled. " ++
          "Set BRAZE_WRITE_ENABLED=true to enable write operations."), st)
    else f.call ctx now st args kw

/-- Python `repr` of a list of strings, as interpolated by the f-string
in the workspace-gate error message. -/
def pyListRepr (xs : List String) : String :=
  "[" ++ pyJoin ", " (xs.map (fun p => "\x27" ++ p ++ "\x27")) ++ "]"

/-- `needle in haystack` for Python strings: substring containment. -/
def containsSubstr (haystack needle : String) : Bool :=
  containsList needle.toList haystack.toList

/-- `validate_workspace_safety`: unless `ALLOW_PRODUCTION` is set, the
workspace base URL must contain at least one of the configured allowed
patterns (each stripped of surrounding whitespace) as a substring, else
a `ValueError` listing the allowed patterns is raised. -/
def validate_workspace_safety (env : SafetyEnv) (f : AsyncFunc) : AsyncFunc where
  name := f.name
  call := fun ctx now st args kw =>
    if !env.allowProduction then
      let is_allowed := env.allowedWorkspacePatterns.any
        (fun pattern => containsSubstr ctx.baseUrl (pyStrip pattern))
      if !is_allowed then
        (.exn "ValueError"
          ("Write operation \x27" ++ f.name ++ "\x27 blocked for workspace: " ++
            ctx.baseUrl ++ "\n" ++
            "Only workspaces matching these patterns are allowed: " ++
            pyListRepr env.allowedWorkspacePatterns ++ "\n" ++
            "This is a safety measure to prevent accidental writes to production.\n" ++
            "Set BRAZE_ALLOW_PRODUCTION=true to override (NOT RECOMMENDED)."), st)
      else f.call ctx now st args kw
    else f.call ctx now st args kw

/-- `str.capitalize()`: first character upper-cased, the rest
lower-cased. -/
def pyCapitalize (s : String) : String :=
  match s.toList with
  | [] => ""
  | c :: cs => String.mk (c.toUpper :: cs.map Char.toLower)

/-- The "confirmation required" dictionary returned by
`require_confirmation` when `confirm` is not truthy (`args`/`kwargs`
are embedded after the `confirm` pop). -/
def confirmationRequiredDict (operation_type opName : String)
    (args : List PyVal) (kw2 : Kwargs) : PyVal :=
  .pdict [
    ("error", .pstr (pyCapitalize operation_type ++
      " operation requires confirmation")),
    ("operation", .pstr opName),
    ("message", .pstr "Add confirm=True parameter to proceed"),
    ("parameters", .pdict [("args", .plist args), ("kwargs", .pdict kw2)])]

/-- The "would execute" dictionary returned by `supports_dry_run`
(kwargs after the `dry_run` binding was consumed). -/
def dryRunDict (opName : String) (args : List PyVal) (kw2 : Kwargs) : PyVal :=
  .pdict [
    ("dry_run", .pbool true),
    ("operation", .pstr opName),
    ("would_execute", .pdict [
      ("function", .pstr opName),
      ("args", .plist args),
      ("kwargs", .pdict kw2)]),
    ("message", .pstr "This is a dry run. No actual API call was made.")]

/-- `require_confirmation(operation_type)`: pops `confirm` from the
keyword arguments (default `False`); if it is not truthy, returns the
structured "requires confirmation" dictionary (built from the
already-popped kwargs) without calling the wrapped function; otherwise
delegates with `confirm` removed. -/
def require_confirmation (operation_type : String) (f : AsyncFunc) : AsyncFunc where
  name := f.name
  call := fun ctx now st args kw =>
    let confirm := popKw kw "confirm" (.pbool false)
    let kw2 := removeKw kw "confirm"
    if !truthy confirm then
      (.ret (confirmationRequiredDict operation_type f.name args kw2), st)
    else f.call ctx now st args kw2

/-- `rate_limit(limit, window_seconds)`: consults the shared
`rate_limiter` under the wrapped function's name; raises `ValueError`
with the limiter's message when not allowed, propagates an `IndexError`
escaping from `check_limit`, and otherwise delegates. -/
def rate_limit (limit window_seconds : Int) (f : AsyncFunc) : AsyncFunc where
  name := f.name
  call := fun ctx now st args kw =>
    match check_limit st f.name limit window_seconds now with
    | (.error e, st1) => (.exn "IndexError" e, st1)
    | (.ok (is_allowed, message), st1) =>
      if !is_allowed then (.exn "ValueError" message, st1)
      else f.call ctx now st1 args kw

/-- `supports_dry_run`: the wrapper signature
`(ctx, *args, dry_run=None, **kwargs)` binds `dry_run` out of the
keyword arguments; the effective flag is the passed value unless it is
`None`/absent, in which case the process-wide `DRY_RUN_DEFAULT` applies.
When set, returns the structured "would execute" dictionary without
calling the wrapped function; otherwise delegates (without `dry_run`). -/
def supports_dry_run (env : SafetyEnv) (f : AsyncFunc) : AsyncFunc where
  name := f.name
  call := fun ctx now st args kw =>
    let dry_run := lookupKw kw "dry_run"
    let kw2 := removeKw kw "dry_run"
    let should_dry_run := match dry_run with
      | none => env.dryRunDefault
      | some .pnone => env.dryRunDefault
      | some v => truthy v
    if should_dry_run then
      (.ret (dryRunDict f.name args kw2), st)
    else f.call ctx now st args kw2

/-- Python truthiness of an `int | None` argument, as used by
`if rate_limit_count and rate_limit_window:`. -/
def optIntTruthy : Option Int → Bool
  | none => false
  | some n => n != 0

/-- `safe_write_operation(rate_limit_count, rate_limit_window,
require_confirm)`: wraps the function with (innermost first) dry-run
support, then — when both a count and a window are given — rate
limiting, then — when requested — confirmation, then workspace
validation, then the write-enabled check outermost. -/
def safe_write_operation (env : SafetyEnv)
    (rate_limit_count rate_limit_window : Option Int)
    (require_confirm : Bool) (func : AsyncFunc) : AsyncFunc :=
  let wrapped := func
  let wrapped := supports_dry_run env wrapped
  let wrapped :=
    if optIntTruthy rate_limit_count && optIntTruthy rate_limit_window then
      rate_limit (rate_limit_count.getD 0) (rate_limit_window.getD 0) wrapped
    else wrapped
  let wrapped :=
    if require_confirm then require_confirmation "destructive" wrapped
    else wrapped
  let wrapped := validate_workspace_safety env wrapped
  validate_write_enabled env wrapped

/-!
## registry_builder.py — type collapsing, docstring parsing, extraction
-/

/-- A Python type annotation as seen by `get_type_hints` /
`get_origin` / `get_args`: the basic types of `BASIC_TYPE_MAPPING`,
`NoneType`, `Union[...]` (covering `Optional[T]` and `T | U`), and
parameterized generics `origin[args...]`. `tOther` stands for any other
plain class. -/
inductive PyTy where
  | tNone : PyTy
  | tStr : PyTy
  | tInt : PyTy
  | tBool : PyTy
  | tFloat : PyTy
  | tList : PyTy
  | tTuple : PyTy
  | tDict : PyTy
  | tObjectTy : PyTy
  | tOther : String → PyTy
  | tUnion : List PyTy → PyTy
  | tGeneric : PyTy → List PyTy → PyTy
deriving Repr, BEq

/-- `BASIC_TYPE_MAPPING.get(t, "object")`. -/
def basicTypeMapping : PyTy → String
  | .tStr => "string"
  | .tInt => "integer"
  | .tBool => "boolean"
  | .tFloat => "number"
  | .tList => "array"
  | .tDict => "object"
  | .tObjectTy => "object"
  | _ => "object"

mutual

/-- `_python_type_to_json_type`: `NoneType` maps to `"null"`; a union
collapses to its first non-`None` alternative (or `"null"` if none);
generics over `list`/`tuple` map to `"array"`, over `dict` to
`"object"`, other generics fall back to their origin's basic mapping;
everything else goes through `BASIC_TYPE_MAPPING` with default
`"object"`. -/
def python_type_to_json_type : PyTy → String
  | .tNone => "null"
  | .tUnion args => unionFirstNonNone args
  | .tGeneric origin _ =>
    match origin with
    | .tList => "array"
    | .tTuple => "array"
    | .tDict => "object"
    | o => basicTypeMapping o
  | t => basicTypeMapping t

/-- `non_none_types = [t for t in args if t is not NoneType]`; the first
one wins, an empty remainder yields `"null"`. -/
def unionFirstNonNone : List PyTy → String
  | [] => "null"
  | .tNone :: ts => unionFirstNonNone ts
  | t :: _ => python_type_to_json_type t

end

mutual

/-- `json.dumps` succeeds exactly on values built from bools, ints,
strings, `None`, lists and dicts of such values; function objects and
other class instances fail. -/
def jsonSerializable : PyVal → Bool
  | .pbool _ => true
  | .pint _ => true
  | .pstr _ => true
  | .pnone => true
  | .plist vs => jsonSerializableList vs
  | .pdict fs => jsonSerializableFields fs
  | .pcallable _ => false
  | .pobj _ _ => false

def jsonSerializableList : List PyVal → Bool
  | [] => true
  | v :: vs => jsonSerializable v && jsonSerializableList vs

def jsonSerializableFields : List (String × PyVal) → Bool
  | [] => true
  | f :: fs => jsonSerializable f.2 && jsonSerializableFields fs

end

/-- `_safe_serialize_default`: a JSON-serializable default is kept;
otherwise `None` stays `None`, a callable becomes a
`"<function: name>"` placeholder, and any other object becomes a
`"<ClassName: str(value)>"` placeholder. -/
def safe_serialize_default (v : PyVal) : PyVal :=
  if jsonSerializable v then v
  else match v with
    | .pcallable n => .pstr ("<function: " ++ n ++ ">")
    | .pobj cls s => .pstr ("<" ++ cls ++ ": " ++ s ++ ">")
    | w => w

/-- `DOCSTRING_SECTION_HEADERS`. -/
def DOCSTRING_SECTION_HEADERS : List String :=
  ["args:", "arguments:", "parameters:", "returns:", "return:",
   "raises:", "raise:", "yields:", "yield:", "examples:", "example:",
   "note:", "notes:", "warning:", "warnings:"]

/-- `_is_section_header(line, valid_sections, check_indentation)`. -/
def is_section_header (line : String) (valid_sections : Option (List String))
    (check_indentation : Bool) : Bool :=
  let stripped := pyStrip line
  if !(stripped ≠ "" && pyEndsWith stripped ":") then false
  else if check_indentation && (pyStartsWith line " " || pyStartsWith line "\t") then
    false
  else match valid_sections with
    | some vs => vs.contains (pyToLower stripped)
    | none => true

/-- Loop body of `_extract_description_from_docstring`: skip leading
blank lines, stop at the first recognized section header, collect the
stripped non-empty lines. -/
def extract_description_loop : List String → List String → Bool → List String
  | [], acc, _ => acc.reverse
  | line :: rest, acc, found =>
    let stripped := pyStrip line
    if stripped = "" && !found then extract_description_loop rest acc found
    else if is_section_header line (some DOCSTRING_SECTION_HEADERS) false then
      acc.reverse
    else if stripped ≠ "" then
      extract_description_loop rest (stripped :: acc) true
    else extract_description_loop rest acc found

/-- `_extract_description_from_docstring`: the docstring's leading text
joined with single spaces, `"No description available"` when there is
none (a `None` or empty docstring is falsy). -/
def extract_description_from_docstring (docstring : Option String) : String :=
  match docstring with
  | none => "No description available"
  | some d =>
    if d = "" then "No description available"
    else
      let description_lines := extract_description_loop (pySplit d '\n') [] false
      if description_lines.isEmpty then "No description available"
      else pyJoin " " description_lines

/-- `_find_section_start`, reformulated to return the lines after the
header (the source returns the index `i + 1` into the same list). -/
def find_section_tail (lines : List String) (section_names : List String) :
    Option (List String) :=
  match lines with
  | [] => none
  | l :: rest =>
    if is_section_header l (some section_names) false then some rest
    else find_section_tail rest section_names

/-- `len(line) - len(line.lstrip())`. -/
def indent_of (line : String) : Nat :=
  line.length - (pyLStrip line).length

/-- `stripped.split(":", 1)` (only called when a colon is present). -/
def splitFirstColon (s : String) : String × String :=
  match splitOnCharList ':' s.toList with
  | [] => (s, "")
  | [x] => (⟨x⟩, "")
  | x :: rest => (⟨x⟩, pyJoin ":" (rest.map (fun l => ⟨l⟩)))

/-- `_extract_multiline_description` from the lines after the parameter
line: blank lines are skipped, lines indented strictly deeper than the
parameter line are collected (stripped), the first shallower non-blank
line stops the scan. -/
def extract_multiline_tail (base_indent : Nat) : List String → List String
  | [] => []
  | next_line :: tl =>
    if pyStrip next_line = "" then extract_multiline_tail base_indent tl
    else if indent_of next_line > base_indent then
      pyStrip next_line :: extract_multiline_tail base_indent tl
    else []

/-- Scan of `_parse_args_section` over the lines after the Args header:
stop at the next (unindented) section header; skip lines without a
colon; on a line whose key part equals the parameter name (or starts
with `"name ("`), return its description together with any multiline
continuation, unless the description part is empty. -/
def parse_args_loop (param_name : String) : List String → Option String
  | [] => none
  | line :: tl =>
    let stripped := pyStrip line
    if is_section_header line none true then none
    else if !(pyContainsChar stripped ':') then parse_args_loop param_name tl
    else
      let parts := splitFirstColon stripped
      let param_part := pyStrip parts.1
      if param_part = param_name || pyStartsWith param_part (param_name ++ " (") then
        let desc_part := pyStrip parts.2
        if desc_part ≠ "" then
          some (pyJoin " "
            (desc_part :: extract_multiline_tail (indent_of line) tl))
        else parse_args_loop param_name tl
      else parse_args_loop param_name tl

/-- `_parse_args_section(docstring, param_name)`. -/
def parse_args_section (docstring : String) (param_name : String) :
    Option String :=
  match find_section_tail (pySplit docstring '\n')
      ["args:", "arguments:", "parameters:"] with
  | none => none
  | some after => parse_args_loop param_name after

/-- Collection loop of `_parse_returns_section`: stop at the next
section header, skip blank lines before any content, collect stripped
non-empty lines, stop at the first blank line after content. -/
def parse_returns_loop : List String → List String → List String
  | [], acc => acc.reverse
  | line :: tl, acc =>
    let stripped := pyStrip line
    if is_section_header line none true then acc.reverse
    else if stripped = "" && acc.isEmpty then parse_returns_loop tl acc
    else if stripped ≠ "" then parse_returns_loop tl (stripped :: acc)
    else acc.reverse

/-- `_parse_returns_section`. -/
def parse_returns_section (docstring : Option String) : Option String :=
  match docstring with
  | none => none
  | some d =>
    if d = "" then none
    else match find_section_tail (pySplit d '\n') ["returns:", "return:"] with
    | none => none
    | some after =>
      let description_lines := parse_returns_loop after []
      if description_lines.isEmpty then none
      else some (pyJoin " " description_lines)

/-- `_extract_param_description`. -/
def extract_param_description (docstring : Option String)
    (param_name : String) : String :=
  match docstring with
  | none => "Parameter " ++ param_name
  | some d =>
    if d = "" then "Parameter " ++ param_name
    else match parse_args_section d param_name with
      | some desc => if desc ≠ "" then desc else "Parameter " ++ param_name
      | none => "Parameter " ++ param_name

/-- A declared parameter as produced by `inspect.signature`: its name
and — when it has one (`param.default is not inspect.Parameter.empty`) —
its default value. -/
structure ParamDecl where
  name : String
  default : Option PyVal
deriving Repr

/-- The `ParameterInfo` dictionary built by `_extract_parameter_info`:
`type`, `required`, `description`, plus `default` exactly when the
parameter declares one. -/
structure ParameterInfo where
  type : String
  required : Bool
  description : String
  default : Option PyVal
deriving Repr

/-- `_extract_parameter_info(param_name, param, type_hints, docstring)`:
the resolved hint (falling back to `str`) collapsed to a JSON type tag,
`required` iff there is no default, the docstring-derived description,
and the safely serialized default when present. -/
def extract_parameter_info (p : ParamDecl)
    (type_hints : List (String × PyTy)) (docstring : Option String) :
    ParameterInfo :=
  let param_type :=
    ((type_hints.find? (fun h => h.1 = p.name)).map (fun h => h.2)).getD .tStr
  { type := python_type_to_json_type param_type
    required := p.default.isNone
    description := extract_param_description docstring p.name
    default := p.default.map safe_serialize_default }

/-- A Python function object as reflection sees it: `__name__`,
`__doc__`, the outcome of `inspect.signature` (which raises for some
objects) and the outcome of `get_type_hints` (which may raise a
`NameError`/`AttributeError`/`TypeError`). -/
structure PyFunction where
  name : String
  doc : Option String
  sig : Except String (List ParamDecl)
  hints : Except String (List (String × PyTy))

/-- The metadata record built by `extract_function_metadata`: the
`returns` field carries the description of the `{"description": ...,
"type": "object"}` dictionary added when a Returns section exists;
`error` is the extra key of the fallback record. -/
structure FuncMetadata where
  implementation : PyFunction
  description : String
  parameters : List (String × ParameterInfo)
  returns : Option String
  error : Option String

/-- `_get_type_hints_safely`: hint-resolution failures are logged and
collapsed to an empty hint map. -/
def get_type_hints_safely (f : PyFunction) : List (String × PyTy) :=
  match f.hints with
  | .ok h => h
  | .error _ => []

/-- `_create_fallback_metadata`. -/
def create_fallback_metadata (f : PyFunction) (error : String) :
    FuncMetadata :=
  { implementation := f
    description := "Function " ++ f.name ++ " (metadata extraction failed)"
    parameters := []
    returns := none
    error := some error }

/-- `extract_function_metadata`: on a signature-introspection failure
the surrounding `try`/`except` yields the fallback record; otherwise
every parameter of the signature — the invocation-context parameter
included, nothing skips it — receives a `ParameterInfo`, and a Returns
section adds the `returns` entry. -/
def extract_function_metadata (f : PyFunction) : FuncMetadata :=
  match f.sig with
  | .error e => create_fallback_metadata f e
  | .ok params =>
    let type_hints := get_type_hints_safely f
    let description := extract_description_from_docstring f.doc
    let parameters := params.map
      (fun p => (p.name, extract_parameter_info p type_hints f.doc))
    { implementation := f
      description := description
      parameters := parameters
      returns := parse_returns_section f.doc
      error := none }

/-!
## models/errors.py and server.py — dispatcher error paths
-/

/-- `function_not_found_error(function_name, available_functions)`. -/
def function_not_found_error (function_name : String)
    (available_functions : List String) : PyVal :=
  .pdict [
    ("error", .pstr "Function not found"),
    ("function", .pstr function_name),
    ("message", .pstr ("Function \x27" ++ function_name ++ "\x27 is not available")),
    ("available_functions", .plist ((available_functions.take 10).map .pstr)),
    ("total_available", .pint available_functions.length),
    ("suggestion", .pstr "Use list_functions() to see all available functions")]

/-- `invalid_params_error(message, operation)`. -/
def invalid_params_error (message operation : String) : PyVal :=
  .pdict [
    ("error", .pstr "Invalid parameters"),
    ("operation", .pstr operation),
    ("message", .pstr message)]

/-- The `parameters` argument of `call_function`: a dict, a string, an
absent/`None` value, or a value of any other runtime type (carrying
`type(parameters).__name__`). -/
inductive ParamsArg where
  | fromDict : List (String × PyVal) → ParamsArg
  | fromStr : String → ParamsArg
  | fromNone : ParamsArg
  | other : String → ParamsArg
deriving Repr

/-- Observable outcome of the dispatcher: an error dictionary returned
at the boundary, or the delegation `await implementation(ctx,
**parsed_parameters)` to the registered tool (the repository's
dispatcher then forwards that tool's result; the tools themselves are
external collaborators outside this spec's core). -/
inductive DispatchOutcome where
  | errorDict : PyVal → DispatchOutcome
  | invoked : String → List (String × PyVal) → DispatchOutcome
deriving Repr

/-- `call_function(ctx, function_name, parameters)` up to the point of
delegation: unknown names get the not-found error (built from the
cached `AVAILABLE_FUNCTION_NAMES` list, here `registry`); a string
`parameters` is JSON-parsed (`json_loads s = none` models a
`json.JSONDecodeError`) and must yield an object; a value that is
neither dict nor string nor `None` is rejected naming its type. -/
def call_function (json_loads : String → Option PyVal)
    (registry : List String) (function_name : String)
    (parameters : ParamsArg) : DispatchOutcome :=
  if !registry.contains function_name then
    .errorDict (function_not_found_error function_name registry)
  else
    match parameters with
    | .fromNone => .invoked function_name []
    | .fromDict d => .invoked function_name d
    | .fromStr s =>
      match json_loads s with
      | none =>
        .errorDict (invalid_params_error "Invalid JSON in parameters string"
          "call_function")
      | some v =>
        match v with
        | .pdict d => .invoked function_name d
        | _ =>
          .errorDict (invalid_params_error
            "Parameters string must parse to a JSON object/dictionary"
            "call_function")
    | .other ty =>
      .errorDict (invalid_params_error
        ("Parameters must be a dictionary or JSON string, got " ++ ty)
        "call_function")

/-!
## Spec-side pipeline (for the decorator-composition refinement claim)
-/

/-- Stage 5 of the spec-side pipeline: the dry-run interceptor, last
before the underlying operation. -/
def spec_dry_run_stage (env : SafetyEnv) (func : AsyncFunc) (ctx : Ctx)
    (now : Int) (st1 : RLState) (args : List PyVal) (kw1 : Kwargs) :
    PyResult × RLState :=
  let kw2 := removeKw kw1 "dry_run"
  let should_dry_run := match lookupKw kw1 "dry_run" with
    | none => env.dryRunDefault
    | some .pnone => env.dryRunDefault
    | some v => truthy v
  if should_dry_run then
    (.ret (dryRunDict func.name args kw2), st1)
  else func.call ctx now st1 args kw2

/-- Stage 4 of the spec-side pipeline: the rate-limit gate when a count
and a window are given, then the dry-run stage. -/
def spec_rate_limit_stage (env : SafetyEnv)
    (rate_limit_count rate_limit_window : Option Int) (func : AsyncFunc)
    (ctx : Ctx) (now : Int) (st : RLState) (args : List PyVal)
    (kw1 : Kwargs) : PyResult × RLState :=
  if optIntTruthy rate_limit_count && optIntTruthy rate_limit_window then
    match check_limit st func.name (rate_limit_count.getD 0)
        (rate_limit_window.getD 0) now with
    | (.error e, st1) => (.exn "IndexError" e, st1)
    | (.ok (is_allowed, message), st1) =>
      if !is_allowed then (.exn "ValueError" message, st1)
      else spec_dry_run_stage env func ctx now st1 args kw1
  else spec_dry_run_stage env func ctx now st args kw1

/-- Stage 3 of the spec-side pipeline: the confirmation gate when
requested, then the rate-limit stage. -/
def spec_confirm_stage (env : SafetyEnv)
    (rate_limit_count rate_limit_window : Option Int)
    (require_confirm : Bool) (func : AsyncFunc) (ctx : Ctx) (now : Int)
    (st : RLState) (args : List PyVal) (kw : Kwargs) : PyResult × RLState :=
  let kw1 := if require_confirm then removeKw kw "confirm" else kw
  if require_confirm && !truthy (popKw kw "confirm" (.pbool false)) then
    (.ret (confirmationRequiredDict "destructive" func.name args kw1), st)
  else
    spec_rate_limit_stage env rate_limit_count rate_limit_window func
      ctx now st args kw1

/-- Spec-side description of the composed pipeline, written as one
sequential check chain in the order the spec declares
(outermost-to-innermost): write-enabled gate, workspace allow-list
gate, confirmation gate when requested, rate-limit gate when a count
and a window are given, dry-run interceptor, then the underlying
operation. -/
def spec_write_pipeline (env : SafetyEnv)
    (rate_limit_count rate_limit_window : Option Int)
    (require_confirm : Bool) (func : AsyncFunc) : AsyncFunc where
  name := func.name
  call := fun ctx now st args kw =>
    -- 1. write-enabled gate intercepts first
    if !env.writeEnabled then
      (.exn "ValueError"
        ("Write operation \x27" ++ func.name ++ "\x27 is disabled. " ++
          "Set BRAZE_WRITE_ENABLED=true to enable write operations."), st)
    -- 2. workspace allow-list gate
    else if !env.allowProduction &&
        !(env.allowedWorkspacePatterns.any
          (fun pattern => containsSubstr ctx.baseUrl (pyStrip pattern))) then
      (.exn "ValueError"
        ("Write operation \x27" ++ func.name ++ "\x27 blocked for workspace: " ++
          ctx.baseUrl ++ "\n" ++
          "Only workspaces matching these patterns are allowed: " ++
          pyListRepr env.allowedWorkspacePatterns ++ "\n" ++
          "This is a safety measure to prevent accidental writes to production.\n" ++
          "Set BRAZE_ALLOW_PRODUCTION=true to override (NOT RECOMMENDED)."), st)
    else
      spec_confirm_stage env rate_limit_count rate_limit_window
        require_confirm func ctx now st args kw

/-!
## Rate-limiter run driver (for the concrete sliding-window scenario)
-/

/-- Run a sequence of `check_limit` calls for one operation at the
given times, collecting each call's outcome and threading the state. -/
def rlRun (st : RLState) (calls : List Int) (limit window : Int)
    (op : String) : List (Except String (Bool × String)) × RLState :=
  calls.foldl
    (fun acc now =>
      let r := check_limit acc.2 op limit window now
      (acc.1 ++ [r.1], r.2))
    ([], st)

/-!
## Concrete sample objects used by witnesses and counterexamples
-/

/-- A sample write operation used to instantiate guard theorems: it
returns a fixed success value and leaves the limiter state alone. -/
def sampleOp : AsyncFunc where
  name := "send_campaign"
  call := fun _ _ st _ _ => (.ret (.pstr "sent"), st)

/-- A context whose workspace base URL contains `demo-east`. -/
def demoCtx : Ctx := { baseUrl := "https://rest.demo-east.example.com" }

/-- A context whose workspace base URL contains `prod-east`. -/
def prodCtx : Ctx := { baseUrl := "https://rest.prod-east.example.com" }

/-- The default configuration: writes enabled for the exercise,
production not allowed, dry-run default off, default allow patterns. -/
def demoEnv : SafetyEnv where
  writeEnabled := true
  allowProduction := false
  dryRunDefault := false
  allowedWorkspacePatterns := ["demo-", "poc-", "test-"]

/-- A documented tool function as reflection sees it: first parameter
is the invocation context `ctx`. -/
def sampleToolFn : PyFunction where
  name := "send_campaign"
  doc := some ("Send a campaign to specified recipients or segment.\n\n" ++
    "Args:\n    ctx: The MCP context\n" ++
    "    campaign_id: The campaign identifier to send\n\n" ++
    "Returns:\n    Dictionary with send confirmation and dispatch_id\n")
  sig := .ok [{ name := "ctx", default := none },
              { name := "campaign_id", default := none }]
  hints := .ok [("ctx", .tOther "Context"), ("campaign_id", .tStr)]

/-- A callable on which `inspect.signature` raises, so metadata
extraction must fall back. -/
def sampleBrokenFn : PyFunction where
  name := "weird_callable"
  doc := none
  sig := .error "ValueError: no signature found for builtin"
  hints := .error "TypeError"

/-- An undocumented tool function. -/
def sampleUndocFn : PyFunction where
  name := "update_user"
  doc := none
  sig := .ok [{ name := "ctx", default := none },
              { name := "external_id", default := none },
              { name := "attributes", default := some .pnone }]
  hints := .ok [("ctx", .tOther "Context"), ("external_id", .tStr)]

/-!
## Helper lemmas
-/

/-- Removing one key of a kwargs dict does not change the binding of
any other key. -/
theorem lookupKw_removeKw_ne (kw : Kwargs) (k k' : String) (h : k' ≠ k) :
    lookupKw (removeKw kw k) k' = lookupKw kw k' := by
  induction kw with
  | nil => rfl
  | cons p tl ih =>
    by_cases hp : p.1 = k
    · simp only [removeKw, List.eraseP_cons, hp, decide_True, cond_true]
      simp only [lookupKw, List.find?_cons]
      have : (decide (p.1 = k')) = false := by simp [hp, Ne.symm h]
      simp only [this, cond_false]
    · simp only [removeKw, List.eraseP_cons, decide_eq_true_eq, hp, decide_False,
        cond_false]
      simp only [lookupKw, List.find?_cons]
      cases hd : decide (p.1 = k') with
      | true => simp
      | false => simpa [lookupKw, removeKw] using ih

/-- With pairwise-distinct keys (the Python dict invariant), popping a
key removes its binding entirely. -/
theorem lookupKw_removeKw_self (kw : Kwargs) (k : String)
    (h : (kw.map Prod.fst).Nodup) :
    lookupKw (removeKw kw k) k = none := by
  induction kw with
  | nil => rfl
  | cons p tl ih =>
    simp only [List.map_cons, List.nodup_cons] at h
    by_cases hp : p.1 = k
    · simp only [removeKw, List.eraseP_cons, hp, decide_True, cond_true]
      subst hp
      simp only [lookupKw]
      have hfn : List.find? (fun q => decide (q.1 = p.1)) tl = none := by
        rw [List.find?_eq_none]
        intro q hq
        simp only [decide_eq_true_eq]
        intro hq1
        exact h.1 (hq1 ▸ List.mem_map_of_mem Prod.fst hq)
      simp [hfn]
    · simp only [removeKw, List.eraseP_cons, hp, decide_False, cond_false]
      simp only [lookupKw, List.find?_cons]
      have : (decide (p.1 = k)) = false := by simp [hp]
      simp only [this, cond_false]
      simpa [lookupKw, removeKw] using ih h.2

/-!
## C8 — unknown tool name
-/

/-- C8: for every tool name not present in the registry, invoking it
returns a "Function not found" error value whose `available_functions`
field lists at most 10 registered names (the first ten) and whose
`total_available` field equals the total number of registered tools. -/
theorem call_function_unknown_tool (json_loads : String → Option PyVal)
    (registry : List String) (function_name : String) (params : ParamsArg)
    (h : function_name ∉ registry) :
    call_function json_loads registry function_name params =
      .errorDict (.pdict [
        ("error", .pstr "Function not found"),
        ("function", .pstr function_name),
        ("message", .pstr ("Function \x27" ++ function_name ++
          "\x27 is not available")),
        ("available_functions", .plist ((registry.take 10).map .pstr)),
        ("total_available", .pint registry.length),
        ("suggestion", .pstr "Use list_functions() to see all available functions")]) ∧
    (registry.take 10).length ≤ 10 := by
  constructor
  · simp [call_function, function_not_found_error, h]
  · exact List.length_take_le 10 registry

/-- Witness for C8 at a concrete registry and name. -/
theorem call_function_unknown_tool_witness :
    ("delete_everything" ∉ (["send_campaign", "update_user"] : List String)) ∧
    (call_function (fun _ => none) ["send_campaign", "update_user"]
        "delete_everything" .fromNone =
      .errorDict (.pdict [
        ("error", .pstr "Function not found"),
        ("function", .pstr "delete_everything"),
        ("message", .pstr ("Function \x27" ++ "delete_everything" ++
          "\x27 is not available")),
        ("available_functions", .plist
          (((["send_campaign", "update_user"] : List String).take 10).map .pstr)),
        ("total_available", .pint (["send_campaign", "update_user"] : List String).length),
        ("suggestion", .pstr "Use list_functions() to see all available functions")]) ∧
      ((["send_campaign", "update_user"] : List String).take 10).length ≤ 10) :=
  ⟨by decide, call_function_unknown_tool (fun _ => none) _ _ _ (by decide)⟩

/-!
## C7 — invalid `parameters` values at the dispatcher
-/

/-- C7 counterexample: the claim quantifies over every invocation
request, but when the requested tool name is itself unknown the
dispatcher's not-found check fires before parameter validation, so an
invalid JSON `parameters` string yields the "Function not found" error
dictionary and not an "Invalid parameters" one. -/
theorem call_function_invalid_json_unknown_name_counterexample :
    call_function (fun _ => none) ["send_campaign"] "bogus_tool"
        (.fromStr "not json") =
      .errorDict (function_not_found_error "bogus_tool" ["send_campaign"]) ∧
    function_not_found_error "bogus_tool" ["send_campaign"] ≠
      invalid_params_error "Invalid JSON in parameters string" "call_function" := by
  refine ⟨rfl, ?_⟩
  simp [function_not_found_error, invalid_params_error]

/-- C7 (amended: for requests whose tool name is registered — otherwise
the not-found error takes precedence): a `parameters` string that is
not valid JSON, or that parses to a non-object, yields an "Invalid
parameters" error; a `parameters` value that is neither mapping nor
string nor absent yields an "Invalid parameters" error naming the
received type; and in all these cases the underlying tool
implementation is not invoked. -/
theorem call_function_invalid_parameters (json_loads : String → Option PyVal)
    (registry : List String) (function_name : String)
    (hmem : function_name ∈ registry) :
    (∀ s, json_loads s = none →
      call_function json_loads registry function_name (.fromStr s) =
        .errorDict (invalid_params_error "Invalid JSON in parameters string"
          "call_function")) ∧
    (∀ s v, json_loads s = some v → (∀ d, v ≠ .pdict d) →
      call_function json_loads registry function_name (.fromStr s) =
        .errorDict (invalid_params_error
          "Parameters string must parse to a JSON object/dictionary"
          "call_function")) ∧
    (∀ ty, call_function json_loads registry function_name (.other ty) =
      .errorDict (invalid_params_error
        ("Parameters must be a dictionary or JSON string, got " ++ ty)
        "call_function")) ∧
    (∀ impl kwargs s, json_loads s = none →
      call_function json_loads registry function_name (.fromStr s) ≠
        .invoked impl kwargs) ∧
    (∀ impl kwargs s v, json_loads s = some v → (∀ d, v ≠ .pdict d) →
      call_function json_loads registry function_name (.fromStr s) ≠
        .invoked impl kwargs) ∧
    (∀ impl kwargs ty,
      call_function json_loads registry function_name (.other ty) ≠
        .invoked impl kwargs) := by
  have hc : registry.contains function_name = true :=
    List.elem_eq_true_of_mem hmem
  refine ⟨?_, ?_, ?_, ?_, ?_, ?_⟩
  · intro s hs
    simp [call_function, hc, hs, hmem]
  · intro s v hs hv
    cases v <;> simp_all [call_function, hc, hmem]
  · intro ty
    simp [call_function, hc, hmem]
  · intro impl kwargs s hs
    simp [call_function, hc, hs, hmem]
  · intro impl kwargs s v hs hv
    cases v <;> simp_all [call_function, hc, hmem]
  · intro impl kwargs ty
    simp [call_function, hc, hmem]

/-- Witness for the amended C7 at a concrete registry, tool name and
parameters string. -/
theorem call_function_invalid_parameters_witness :
    ("send_campaign" ∈ (["send_campaign"] : List String)) ∧
    call_function (fun _ => none) ["send_campaign"] "send_campaign"
        (.fromStr "not json") =
      .errorDict (invalid_params_error "Invalid JSON in parameters string"
        "call_function") :=
  ⟨by decide,
    (call_function_invalid_parameters (fun _ => none) ["send_campaign"]
      "send_campaign" (by decide)).1 "not json" rfl⟩

/-!
## C4 — confirmation gate
-/

/-- C4: invoking a confirmation-gated operation without `confirm=true`
returns the structured "confirmation required" dictionary naming the
operation — as a return value, not an exception — and does so
independently of the wrapped implementation (no invocation); invoking
it with `confirm=true` invokes the wrapped implementation. -/
theorem require_confirmation_gate (operation_type : String) (f : AsyncFunc)
    (ctx : Ctx) (now : Int) (st : RLState) (args : List PyVal) (kw : Kwargs) :
    ((lookupKw kw "confirm" = none ∨ lookupKw kw "confirm" = some (.pbool false)) →
      ((require_confirmation operation_type f).call ctx now st args kw =
        (.ret (confirmationRequiredDict operation_type f.name args
          (removeKw kw "confirm")), st) ∧
       ∀ g : AsyncFunc, g.name = f.name →
         (require_confirmation operation_type g).call ctx now st args kw =
           (require_confirmation operation_type f).call ctx now st args kw)) ∧
    (lookupKw kw "confirm" = some (.pbool true) →
      (require_confirmation operation_type f).call ctx now st args kw =
        f.call ctx now st args (removeKw kw "confirm")) := by
  constructor
  · rintro (h | h) <;>
    · refine ⟨by simp [require_confirmation, popKw, h, truthy], ?_⟩
      intro g hg
      simp [require_confirmation, popKw, h, truthy, hg]
  · intro h
    simp [require_confirmation, popKw, h, truthy]

/-- Witness for C4: without confirmation the sample operation is
short-circuited with the structured response; with `confirm=true` it is
invoked. -/
theorem require_confirmation_gate_witness :
    ((require_confirmation "destructive" sampleOp).call demoCtx 0 [] [.pstr "c1"] [] =
      (.ret (confirmationRequiredDict "destructive" sampleOp.name [.pstr "c1"]
        (removeKw [] "confirm")), []) ∧
     ∀ g : AsyncFunc, g.name = sampleOp.name →
       (require_confirmation "destructive" g).call demoCtx 0 [] [.pstr "c1"] [] =
         (require_confirmation "destructive" sampleOp).call demoCtx 0 [] [.pstr "c1"] []) ∧
    ((require_confirmation "destructive" sampleOp).call demoCtx 0 []
        [.pstr "c1"] [("confirm", .pbool true)] =
      sampleOp.call demoCtx 0 [] [.pstr "c1"]
        (removeKw [("confirm", .pbool true)] "confirm")) :=
  ⟨(require_confirmation_gate "destructive" sampleOp demoCtx 0 [] [.pstr "c1"] []).1
      (Or.inl rfl),
   (require_confirmation_gate "destructive" sampleOp demoCtx 0 [] [.pstr "c1"]
      [("confirm", .pbool true)]).2 rfl⟩

/-!
## C5 — dry-run interceptor
-/

/-- C5: with `dry_run` explicitly `true`, or absent while the
process-wide dry-run default is set, a dry-run-wrapped operation
returns the structured "would execute" dictionary (operation name and
arguments) without invoking the wrapped implementation — independence
from the implementation makes the non-invocation observable; otherwise
(explicitly `false`, or absent with the default unset) the wrapped
implementation is invoked. -/
theorem supports_dry_run_gate (env : SafetyEnv) (f : AsyncFunc)
    (ctx : Ctx) (now : Int) (st : RLState) (args : List PyVal) (kw : Kwargs) :
    ((lookupKw kw "dry_run" = some (.pbool true) ∨
        (lookupKw kw "dry_run" = none ∧ env.dryRunDefault = true)) →
      ((supports_dry_run env f).call ctx now st args kw =
        (.ret (dryRunDict f.name args (removeKw kw "dry_run")), st) ∧
       ∀ g : AsyncFunc, g.name = f.name →
         (supports_dry_run env g).call ctx now st args kw =
           (supports_dry_run env f).call ctx now st args kw)) ∧
    ((lookupKw kw "dry_run" = some (.pbool false) ∨
        (lookupKw kw "dry_run" = none ∧ env.dryRunDefault = false)) →
      (supports_dry_run env f).call ctx now st args kw =
        f.call ctx now st args (removeKw kw "dry_run")) := by
  constructor
  · rintro (h | ⟨h, hd⟩)
    · refine ⟨by simp [supports_dry_run, h, truthy], ?_⟩
      intro g hg
      simp [supports_dry_run, h, truthy, hg]
    · refine ⟨by simp [supports_dry_run, h, hd], ?_⟩
      intro g hg
      simp [supports_dry_run, h, hd, hg]
  · rintro (h | ⟨h, hd⟩)
    · simp [supports_dry_run, h, truthy]
    · simp [supports_dry_run, h, hd]

/-- Witness for C5: explicit `dry_run=true` short-circuits with the
"would execute" dictionary; with the flag absent and the default off,
the sample operation is invoked. -/
theorem supports_dry_run_gate_witness :
    (((supports_dry_run demoEnv sampleOp).call demoCtx 0 [] [.pstr "c1"]
        [("dry_run", .pbool true)] =
      (.ret (dryRunDict sampleOp.name [.pstr "c1"]
        (removeKw [("dry_run", .pbool true)] "dry_run")), []) ∧
     ∀ g : AsyncFunc, g.name = sampleOp.name →
       (supports_dry_run demoEnv g).call demoCtx 0 [] [.pstr "c1"]
           [("dry_run", .pbool true)] =
         (supports_dry_run demoEnv sampleOp).call demoCtx 0 [] [.pstr "c1"]
           [("dry_run", .pbool true)])) ∧
    ((supports_dry_run demoEnv sampleOp).call demoCtx 0 [] [.pstr "c1"] [] =
      sampleOp.call demoCtx 0 [] [.pstr "c1"] (removeKw [] "dry_run")) :=
  ⟨(supports_dry_run_gate demoEnv sampleOp demoCtx 0 [] [.pstr "c1"]
      [("dry_run", .pbool true)]).1 (Or.inl rfl),
   (supports_dry_run_gate demoEnv sampleOp demoCtx 0 [] [.pstr "c1"] []).2
      (Or.inr ⟨rfl, rfl⟩)⟩

/-!
## C10 — `confirm` is stripped before delegation
-/

/-- C10: when a confirmation-gated operation is invoked with a truthy
`confirm` (in particular `confirm=true`), the wrapped implementation is
called with the `confirm` keyword argument removed — it never receives
a `confirm` binding — while the positional arguments and every other
keyword argument are passed through unchanged. -/
theorem require_confirmation_strips_confirm (operation_type : String)
    (f : AsyncFunc) (ctx : Ctx) (now : Int) (st : RLState) (args : List PyVal)
    (kw : Kwargs) (v : PyVal)
    (hv : lookupKw kw "confirm" = some v) (ht : truthy v = true)
    (hnodup : (kw.map Prod.fst).Nodup) :
    (require_confirmation operation_type f).call ctx now st args kw =
      f.call ctx now st args (removeKw kw "confirm") ∧
    lookupKw (removeKw kw "confirm") "confirm" = none ∧
    (∀ k, k ≠ "confirm" →
      lookupKw (removeKw kw "confirm") k = lookupKw kw k) := by
  refine ⟨?_, lookupKw_removeKw_self kw "confirm" hnodup,
    fun k hk => lookupKw_removeKw_ne kw "confirm" k hk⟩
  simp [require_confirmation, popKw, hv, ht]

/-- Witness for C10 at a kwargs dict holding `confirm=True` and one
other argument. -/
theorem require_confirmation_strips_confirm_witness :
    (lookupKw [("campaign_id", PyVal.pstr "c1"), ("confirm", PyVal.pbool true)]
        "confirm" = some (.pbool true)) ∧
    (truthy (.pbool true) = true) ∧
    ((([("campaign_id", PyVal.pstr "c1"), ("confirm", PyVal.pbool true)] :
        Kwargs).map Prod.fst).Nodup) ∧
    ((require_confirmation "destructive" sampleOp).call demoCtx 0 [] []
        [("campaign_id", .pstr "c1"), ("confirm", .pbool true)] =
      sampleOp.call demoCtx 0 [] []
        (removeKw [("campaign_id", .pstr "c1"), ("confirm", .pbool true)] "confirm") ∧
     lookupKw (removeKw [("campaign_id", .pstr "c1"), ("confirm", .pbool true)]
        "confirm") "confirm" = none ∧
     (∀ k, k ≠ "confirm" →
       lookupKw (removeKw [("campaign_id", .pstr "c1"), ("confirm", .pbool true)]
          "confirm") k =
         lookupKw [("campaign_id", .pstr "c1"), ("confirm", .pbool true)] k)) :=
  ⟨rfl, rfl, by decide,
   require_confirmation_strips_confirm "destructive" sampleOp demoCtx 0 [] []
     [("campaign_id", .pstr "c1"), ("confirm", .pbool true)] (.pbool true)
     rfl rfl (by decide)⟩

/-!
## C6 — workspace allow-list gate
-/

/-- C6: with the allow-production override unset, a workspace-gated
operation delegates to the wrapped implementation exactly when the
workspace base URL contains one of the configured (stripped) allow-list
patterns as a substring, and otherwise fails with the `ValueError`
whose message lists the allowed patterns; with the override set the
gate always delegates. -/
theorem validate_workspace_safety_gate (env : SafetyEnv) (f : AsyncFunc)
    (ctx : Ctx) (now : Int) (st : RLState) (args : List PyVal) (kw : Kwargs) :
    (env.allowProduction = false →
      (env.allowedWorkspacePatterns.any
          (fun pattern => containsSubstr ctx.baseUrl (pyStrip pattern)) = true →
        (validate_workspace_safety env f).call ctx now st args kw =
          f.call ctx now st args kw) ∧
      (env.allowedWorkspacePatterns.any
          (fun pattern => containsSubstr ctx.baseUrl (pyStrip pattern)) = false →
        (validate_workspace_safety env f).call ctx now st args kw =
          (.exn "ValueError"
            ("Write operation \x27" ++ f.name ++ "\x27 blocked for workspace: " ++
              ctx.baseUrl ++ "\n" ++
              "Only workspaces matching these patterns are allowed: " ++
              pyListRepr env.allowedWorkspacePatterns ++ "\n" ++
              "This is a safety measure to prevent accidental writes to production.\n" ++
              "Set BRAZE_ALLOW_PRODUCTION=true to override (NOT RECOMMENDED)."),
           st))) ∧
    (env.allowProduction = true →
      (validate_workspace_safety env f).call ctx now st args kw =
        f.call ctx now st args kw) := by
  refine ⟨fun hap => ⟨fun hyes => ?_, fun hno => ?_⟩, fun hap => ?_⟩
  · simp only [validate_workspace_safety, hap, hyes]
    simp
  · simp only [validate_workspace_safety, hap, hno]
    simp
  · simp only [validate_workspace_safety, hap]
    simp

/-- Witness for C6: with patterns `demo-`, `poc-`, `test-` and the
override off, a `demo-east` URL passes through to the implementation
and a `prod-east` URL is rejected with the pattern-listing message. -/
theorem validate_workspace_safety_gate_witness :
    (demoEnv.allowProduction = false) ∧
    (demoEnv.allowedWorkspacePatterns.any
        (fun pattern => containsSubstr demoCtx.baseUrl (pyStrip pattern)) = true) ∧
    ((validate_workspace_safety demoEnv sampleOp).call demoCtx 0 [] [] [] =
      sampleOp.call demoCtx 0 [] [] []) ∧
    (demoEnv.allowedWorkspacePatterns.any
        (fun pattern => containsSubstr prodCtx.baseUrl (pyStrip pattern)) = false) ∧
    ((validate_workspace_safety demoEnv sampleOp).call prodCtx 0 [] [] [] =
      (.exn "ValueError"
        ("Write operation \x27" ++ sampleOp.name ++ "\x27 blocked for workspace: " ++
          prodCtx.baseUrl ++ "\n" ++
          "Only workspaces matching these patterns are allowed: " ++
          pyListRepr demoEnv.allowedWorkspacePatterns ++ "\n" ++
          "This is a safety measure to prevent accidental writes to production.\n" ++
          "Set BRAZE_ALLOW_PRODUCTION=true to override (NOT RECOMMENDED)."),
       [])) :=
  ⟨rfl, by decide,
   ((validate_workspace_safety_gate demoEnv sampleOp demoCtx 0 [] [] []).1 rfl).1
     (by decide),
   by decide,
   ((validate_workspace_safety_gate demoEnv sampleOp prodCtx 0 [] [] []).1 rfl).2
     (by decide)⟩

/-!
## C1 — one ParameterInfo per declared parameter, and the `ctx` entry
-/

/-- C1 counterexample: metadata extraction does not skip the implicit
invocation-context parameter — for a registered tool with signature
`(ctx, campaign_id)` the extracted parameter mapping contains a `ctx`
entry, contradicting "the context parameter never appears in the
extracted parameter mapping". -/
theorem ctx_in_extracted_parameters_counterexample :
    (extract_function_metadata sampleToolFn).parameters.map Prod.fst =
      ["ctx", "campaign_id"] ∧
    "ctx" ∈ (extract_function_metadata sampleToolFn).parameters.map Prod.fst := by
  exact ⟨rfl, by decide⟩

/-- C1 (amended): for every tool function whose signature introspection
succeeds, metadata extraction yields exactly one `ParameterInfo` entry
per declared parameter, in declaration order — including the implicit
first invocation-context parameter `ctx`, which appears in the mapping
like any other parameter. -/
theorem extract_metadata_one_entry_per_declared_parameter (f : PyFunction)
    (params : List ParamDecl) (h : f.sig = .ok params) :
    (extract_function_metadata f).parameters.map Prod.fst =
      params.map ParamDecl.name := by
  simp [extract_function_metadata, h]

/-- Witness for the amended C1 at the sample tool function. -/
theorem extract_metadata_one_entry_per_declared_parameter_witness :
    (sampleToolFn.sig = .ok [{ name := "ctx", default := none },
        { name := "campaign_id", default := none }]) ∧
    (extract_function_metadata sampleToolFn).parameters.map Prod.fst =
      ([{ name := "ctx", default := none },
        { name := "campaign_id", default := none }] : List ParamDecl).map
        ParamDecl.name :=
  ⟨rfl, extract_metadata_one_entry_per_declared_parameter sampleToolFn _ rfl⟩

/-!
## C9 — extraction never raises; fallback and no-doc behaviour
-/

/-- C9: metadata extraction is total (never raises): on an internal
introspection failure it returns the fallback record preserving the
implementation reference, with a description stating the extraction
failed, an empty parameter map and the error detail attached; and for
a callable with no documentation it still succeeds, with description
"No description available" and a generic "Parameter <name>" description
for every extracted parameter. -/
theorem extract_metadata_total_with_fallback (f : PyFunction) :
    (∀ e, f.sig = .error e →
      extract_function_metadata f =
        { implementation := f
          description := "Function " ++ f.name ++ " (metadata extraction failed)"
          parameters := []
          returns := none
          error := some e }) ∧
    (f.doc = none → ∀ params, f.sig = .ok params →
      (extract_function_metadata f).description = "No description available" ∧
      ∀ pr ∈ (extract_function_metadata f).parameters,
        pr.2.description = "Parameter " ++ pr.1) := by
  constructor
  · intro e he
    simp [extract_function_metadata, he, create_fallback_metadata]
  · intro hdoc params hsig
    constructor
    · simp [extract_function_metadata, hsig, hdoc,
        extract_description_from_docstring]
    · intro pr hpr
      simp only [extract_function_metadata, hsig, List.mem_map] at hpr
      obtain ⟨p, hp, rfl⟩ := hpr
      simp [extract_parameter_info, extract_param_description, hdoc]

/-- Witness for C9: the fallback record at a callable whose signature
introspection fails, and the no-documentation behaviour at an
undocumented tool. -/
theorem extract_metadata_total_with_fallback_witness :
    (sampleBrokenFn.sig = .error "ValueError: no signature found for builtin") ∧
    (extract_function_metadata sampleBrokenFn =
      { implementation := sampleBrokenFn
        description := "Function " ++ sampleBrokenFn.name ++
          " (metadata extraction failed)"
        parameters := []
        returns := none
        error := some "ValueError: no signature found for builtin" }) ∧
    (sampleUndocFn.doc = none) ∧
    ((extract_function_metadata sampleUndocFn).description =
        "No description available" ∧
     ∀ pr ∈ (extract_function_metadata sampleUndocFn).parameters,
       pr.2.description = "Parameter " ++ pr.1) :=
  ⟨rfl, (extract_metadata_total_with_fallback sampleBrokenFn).1 _ rfl, rfl,
   (extract_metadata_total_with_fallback sampleUndocFn).2 rfl _ rfl⟩

/-!
## C3 — sliding-window rate limiter
-/

/-- C3 counterexample: the claim quantifies over every limit, but at
`limit = 0` (an admissible integer limit) with no recorded timestamps
the reject branch indexes the empty pruned list, so `check_limit`
raises `IndexError` instead of rejecting with a count/limit/wait
report. -/
theorem check_limit_zero_limit_counterexample :
    check_limit [] "update_catalog_item" 0 60 100 =
      (.error "IndexError: list index out of range",
       [("update_catalog_item", [])]) := rfl

/-- C3 (amended: for every positive limit; pruning discards timestamps
not strictly newer than `now` minus the window): `check_limit` first
prunes, then — when the in-window count is at least the limit — rejects
without recording the attempt, reporting the current count, the limit,
and the time until the oldest in-window timestamp exits the window
(the head of the pruned list, its least element when the recorded
timestamps are chronological); otherwise it records `now` and accepts.
With `limit = 3` and `window = 60`, of four calls within 60 seconds the
first three are accepted and the fourth is rejected reporting `3/3`,
and a call after the window has elapsed is accepted again. -/
theorem check_limit_check_and_record (st : RLState) (op : String)
    (limit window now : Int) (hlim : 1 ≤ limit)
    (hsorted : ((getRequests st op).Sorted (· ≤ ·))) :
    ((limit ≤ (((getRequests st op).filter (fun t => t > now - window)).length : Int) →
      ∃ oldest rest,
        (getRequests st op).filter (fun t => t > now - window) = oldest :: rest ∧
        (∀ t ∈ (getRequests st op).filter (fun t => t > now - window),
          oldest ≤ t) ∧
        check_limit st op limit window now =
          (.ok (false,
            "Rate limit exceeded for " ++ op ++ ". " ++
              toString ((((getRequests st op).filter
                (fun t => t > now - window)).length : Int)) ++ "/" ++
              toString limit ++ " requests in window. Try again in " ++
              toString (oldest - (now - window)) ++ " seconds."),
           setRequests st op
             ((getRequests st op).filter (fun t => t > now - window)))) ∧
     ((((getRequests st op).filter (fun t => t > now - window)).length : Int)
        < limit →
      check_limit st op limit window now =
        (.ok (true,
          "OK (" ++ toString ((((getRequests st op).filter
            (fun t => t > now - window)).length : Int) + 1) ++ "/" ++
            toString limit ++ ")"),
         setRequests st op
           ((getRequests st op).filter (fun t => t > now - window) ++ [now])))) ∧
    ((rlRun [] [0, 10, 20, 30] 3 60 "send_campaign").1 =
      [.ok (true, "OK (1/3)"), .ok (true, "OK (2/3)"), .ok (true, "OK (3/3)"),
       .ok (false, "Rate limit exceeded for send_campaign. " ++
         "3/3 requests in window. Try again in 30 seconds.")] ∧
     (check_limit (rlRun [] [0, 10, 20, 30] 3 60 "send_campaign").2
         "send_campaign" 3 60 100).1 = .ok (true, "OK (1/3)")) := by
  refine ⟨⟨?_, ?_⟩, by exact ⟨rfl, rfl⟩⟩
  · intro hge
    have hps : ((getRequests st op).filter
        (fun t => t > now - window)).Sorted (· ≤ ·) :=
      List.Pairwise.sublist (List.filter_sublist _) hsorted
    rcases hp : (getRequests st op).filter (fun t => t > now - window) with
      _ | ⟨oldest, rest⟩
    · rw [hp] at hge
      simp only [List.length_nil, Nat.cast_zero] at hge
      omega
    · refine ⟨oldest, rest, rfl, ?_, ?_⟩
      · rw [hp] at hps
        intro t ht
        rcases List.mem_cons.1 ht with h1 | h1
        · exact h1 ▸ le_refl _
        · exact (List.pairwise_cons.1 hps).1 t h1
      · rw [check_limit]
        simp only [hp]
        rw [if_pos]
        exact hge.trans_eq (by rw [hp])
  · intro hlt
    rw [check_limit]
    rw [if_neg]
    omega

/-- Witness for the amended C3 at a concrete recorded-timestamp state:
two in-window timestamps against `limit = 2` give a rejection. -/
theorem check_limit_check_and_record_witness :
    ((1 : Int) ≤ 2) ∧
    ((getRequests [("send_campaign", [0, 10])] "send_campaign").Sorted (· ≤ ·)) ∧
    ((2 ≤ (((getRequests [("send_campaign", [0, 10])] "send_campaign").filter
        (fun t => t > (30 : Int) - 60)).length : Int) →
      ∃ oldest rest,
        (getRequests [("send_campaign", [0, 10])] "send_campaign").filter
          (fun t => t > (30 : Int) - 60) = oldest :: rest ∧
        (∀ t ∈ (getRequests [("send_campaign", [0, 10])] "send_campaign").filter
          (fun t => t > (30 : Int) - 60), oldest ≤ t) ∧
        check_limit [("send_campaign", [0, 10])] "send_campaign" 2 60 30 =
          (.ok (false,
            "Rate limit exceeded for " ++ "send_campaign" ++ ". " ++
              toString ((((getRequests [("send_campaign", [0, 10])]
                "send_campaign").filter
                (fun t => t > (30 : Int) - 60)).length : Int)) ++ "/" ++
              toString (2 : Int) ++ " requests in window. Try again in " ++
              toString (oldest - ((30 : Int) - 60)) ++ " seconds."),
           setRequests [("send_campaign", [0, 10])] "send_campaign"
             ((getRequests [("send_campaign", [0, 10])] "send_campaign").filter
               (fun t => t > (30 : Int) - 60)))) ∧
     ((((getRequests [("send_campaign", [0, 10])] "send_campaign").filter
        (fun t => t > (30 : Int) - 60)).length : Int) < 2 →
      check_limit [("send_campaign", [0, 10])] "send_campaign" 2 60 30 =
        (.ok (true,
          "OK (" ++ toString ((((getRequests [("send_campaign", [0, 10])]
            "send_campaign").filter
            (fun t => t > (30 : Int) - 60)).length : Int) + 1) ++ "/" ++
            toString (2 : Int) ++ ")"),
         setRequests [("send_campaign", [0, 10])] "send_campaign"
           ((getRequests [("send_campaign", [0, 10])] "send_campaign").filter
             (fun t => t > (30 : Int) - 60) ++ [30])))) :=
  ⟨by decide, by decide,
   ((check_limit_check_and_record [("send_campaign", [0, 10])] "send_campaign"
      2 60 30 (by decide) (by decide)).1 : _)⟩

/-!
## C2 — fixed guard composition order
-/

/-- The innermost dry-run wrapper coincides with the spec-side dry-run
stage. -/
theorem supports_dry_run_call_eq_spec (env : SafetyEnv) (func : AsyncFunc)
    (ctx : Ctx) (now : Int) (st : RLState) (args : List PyVal) (kw1 : Kwargs) :
    (supports_dry_run env func).call ctx now st args kw1 =
      spec_dry_run_stage env func ctx now st args kw1 := rfl

/-- The (conditional) rate-limit wrapper around the dry-run wrapper
coincides with the spec-side rate-limit stage. -/
theorem rate_stage_call_eq_spec (env : SafetyEnv) (c w : Option Int)
    (func : AsyncFunc) (ctx : Ctx) (now : Int) (st : RLState)
    (args : List PyVal) (kw1 : Kwargs) :
    (if optIntTruthy c && optIntTruthy w then
        rate_limit (c.getD 0) (w.getD 0) (supports_dry_run env func)
      else supports_dry_run env func).call ctx now st args kw1 =
      spec_rate_limit_stage env c w func ctx now st args kw1 := by
  by_cases hcw : optIntTruthy c && optIntTruthy w
  · simp only [hcw, if_true, rate_limit, spec_rate_limit_stage, supports_dry_run,
      spec_dry_run_stage]
  · simp only [hcw, if_false, Bool.false_eq_true, spec_rate_limit_stage,
      supports_dry_run, spec_dry_run_stage]

/-- The name of the rate-limit/dry-run wrapper chain is the underlying
function's name (`functools.wraps`). -/
theorem rate_stage_name (env : SafetyEnv) (c w : Option Int)
    (func : AsyncFunc) :
    (if optIntTruthy c && optIntTruthy w then
        rate_limit (c.getD 0) (w.getD 0) (supports_dry_run env func)
      else supports_dry_run env func).name = func.name := by
  by_cases hcw : optIntTruthy c && optIntTruthy w <;>
    simp [hcw, rate_limit, supports_dry_run]

/-- The name of the confirmation/rate-limit/dry-run wrapper chain is
the underlying function's name (`functools.wraps`). -/
theorem confirm_stage_name_aux (env : SafetyEnv) (c w : Option Int)
    (rc : Bool) (func : AsyncFunc) :
    (if rc then
        require_confirmation "destructive"
          (if optIntTruthy c && optIntTruthy w then
            rate_limit (c.getD 0) (w.getD 0) (supports_dry_run env func)
          else supports_dry_run env func)
      else
        (if optIntTruthy c && optIntTruthy w then
          rate_limit (c.getD 0) (w.getD 0) (supports_dry_run env func)
        else supports_dry_run env func)).name = func.name := by
  cases rc with
  | false =>
    simp only [Bool.false_eq_true, if_false]
    exact rate_stage_name env c w func
  | true =>
    simp only [if_true, require_confirmation]
    exact rate_stage_name env c w func

/-- The (conditional) confirmation wrapper around the rate-limit and
dry-run wrappers coincides with the spec-side confirmation stage. -/
theorem confirm_stage_call_eq_spec (env : SafetyEnv) (c w : Option Int)
    (rc : Bool) (func : AsyncFunc) (ctx : Ctx) (now : Int) (st : RLState)
    (args : List PyVal) (kw : Kwargs) :
    (if rc then
        require_confirmation "destructive"
          (if optIntTruthy c && optIntTruthy w then
            rate_limit (c.getD 0) (w.getD 0) (supports_dry_run env func)
          else supports_dry_run env func)
      else
        (if optIntTruthy c && optIntTruthy w then
          rate_limit (c.getD 0) (w.getD 0) (supports_dry_run env func)
        else supports_dry_run env func)).call ctx now st args kw =
      spec_confirm_stage env c w rc func ctx now st args kw := by
  cases rc with
  | false =>
    simpa [spec_confirm_stage] using
      rate_stage_call_eq_spec env c w func ctx now st args kw
  | true =>
    simp only [if_true]
    by_cases hcf : truthy (popKw kw "confirm" (.pbool false))
    · simp only [require_confirmation, spec_confirm_stage, hcf, Bool.not_true,
        Bool.false_eq_true, if_false, if_true, Bool.true_and]
      exact rate_stage_call_eq_spec env c w func ctx now st args
        (removeKw kw "confirm")
    · have hcf2 : truthy (popKw kw "confirm" (.pbool false)) = false :=
        Bool.not_eq_true _ ▸ eq_false_of_ne_true hcf
      simp only [require_confirmation, spec_confirm_stage, hcf2, Bool.not_false,
        if_true, Bool.true_and]
      rw [rate_stage_name]

/-- C2: `safe_write_operation` composes exactly the requested subset of
guards in the spec's fixed outermost-to-innermost order: the
write-enabled gate intercepts first, then the workspace allow-list
gate, then (when requested) the confirmation gate, then (when a count
and a window are given) the rate-limit gate, and the dry-run
interceptor runs last before the underlying operation — its behaviour
is pointwise that of the sequential spec pipeline, and the wrapper
keeps the operation's name. -/
theorem safe_write_operation_refines_spec_pipeline (env : SafetyEnv)
    (rate_limit_count rate_limit_window : Option Int) (require_confirm : Bool)
    (func : AsyncFunc) (ctx : Ctx) (now : Int) (st : RLState)
    (args : List PyVal) (kw : Kwargs) :
    (safe_write_operation env rate_limit_count rate_limit_window
        require_confirm func).name = func.name ∧
    (safe_write_operation env rate_limit_count rate_limit_window
        require_confirm func).call ctx now st args kw =
      (spec_write_pipeline env rate_limit_count rate_limit_window
        require_confirm func).call ctx now st args kw := by
  constructor
  · cases require_confirm <;>
      by_cases hcw : optIntTruthy rate_limit_count && optIntTruthy rate_limit_window <;>
      simp [safe_write_operation, validate_write_enabled,
        validate_workspace_safety, require_confirmation, rate_limit,
        supports_dry_run, hcw]
  · by_cases hwe : env.writeEnabled
    · by_cases hap : env.allowProduction
      · simp only [safe_write_operation, validate_write_enabled,
          validate_workspace_safety, hwe, hap, Bool.not_true,
          Bool.false_eq_true, if_false, spec_write_pipeline, Bool.false_and]
        exact confirm_stage_call_eq_spec env rate_limit_count
          rate_limit_window require_confirm func ctx now st args kw
      · by_cases hal : env.allowedWorkspacePatterns.any
            (fun pattern => containsSubstr ctx.baseUrl (pyStrip pattern))
        · simp only [safe_write_operation, validate_write_enabled,
            validate_workspace_safety, hwe, hap, hal, Bool.not_true,
            Bool.not_false, Bool.false_eq_true, if_false, if_true,
            spec_write_pipeline, Bool.true_and, Bool.and_false]
          exact confirm_stage_call_eq_spec env rate_limit_count
            rate_limit_window require_confirm func ctx now st args kw
        · simp only [safe_write_operation, validate_write_enabled,
            validate_workspace_safety, hwe, hap, hal, Bool.not_true,
            Bool.not_false, Bool.false_eq_true, if_false, if_true,
            spec_write_pipeline, Bool.true_and, Bool.and_true]
          rw [confirm_stage_name_aux]
    · cases require_confirm <;>
        by_cases hcw : optIntTruthy rate_limit_count &&
          optIntTruthy rate_limit_window <;>
        simp [safe_write_operation, validate_write_enabled,
          validate_workspace_safety, require_confirmation, rate_limit,
          supports_dry_run, spec_write_pipeline, hwe, hcw]

end BrazeMCP
